import Mathlib

/-!
Shallow embedding of the core logic of the AI-Video-Prompt-Genius repository
(src/App.tsx together with the type declarations of the companion module).

The embedded pieces are:
  - the data model (`Character`, `VideoSegment`, `AnalysisResult`, `AppState`);
  - the frame sampler `extractFramesFromVideo` (App.tsx lines 40-84),
    modelled as a pure function of a `VideoEnv` describing the host-level
    outcome of loading the source (metadata, canvas context availability,
    and the jpeg encoder as an oracle from seek time to base64 payload);
  - the lifecycle state machine `handleVideoSelection` (lines 86-118),
    modelled as a function from the initial state and the outcomes of the
    asynchronous steps (fetch, blob, frame extraction, provider call) to the
    list of successive `AppState` values produced by the `setState` calls;
  - the error classification of the catch block (lines 110-117);
  - the clipboard export `copyAllPrompts` (lines 120-125) and the reset
    transition (lines 154 and 211-216).

Numbers of the host language are modelled as rationals; the DOM coercion of
a fractional canvas dimension to an integer is modelled as a floor.
-/

namespace AVPG

/-! ## Data model (types module) -/

/-- Mirror of the `Character` interface. -/
structure Character where
  id : String
  name : String
  age : String
  gender : String
  skinTone : String
  eyeDetails : String
  hairDetails : String
  facialFeatures : String
  bodyType : String
  clothing : String
  handFootwearDetails : String
  specialFeatures : String
deriving DecidableEq, Repr

/-- Mirror of the `CharacterEmotion` interface. -/
structure CharacterEmotion where
  characterName : String
  emotion : String
deriving DecidableEq, Repr

/-- Mirror of the `VideoSegment` interface. -/
structure VideoSegment where
  startTime : String
  endTime : String
  charactersInScene : List String
  characterEmotions : List CharacterEmotion
  sceneDescription : String
  cameraAndMotion : String
  action : String
  emotion : String
  emotionalIntensity : ℚ
  transitionBridge : String
  generatedPrompt : String
deriving DecidableEq, Repr

/-- Mirror of the `AnalysisResult` interface. -/
structure AnalysisResult where
  globalSummary : String
  emotionalArc : String
  characterMemory : List Character
  segments : List VideoSegment
  fullVideoSummaryPrompt : String
deriving DecidableEq, Repr

/-- Mirror of the `AnalysisStatus` union type. -/
inductive AnalysisStatus where
  | idle
  | uploading
  | analyzing
  | completed
  | error
deriving DecidableEq, Repr

/-- Mirror of the `AppState` interface. -/
structure AppState where
  status : AnalysisStatus
  progress : ℚ
  result : Option AnalysisResult
  error : Option String
deriving DecidableEq, Repr

/-- The initial state passed to `useState` in `App` (lines 10-15). -/
def initialState : AppState :=
  { status := .idle, progress := 0, result := none, error := none }

/-! ## Frame sampler (`extractFramesFromVideo`, lines 40-84) -/

/-- A thrown JavaScript error value, as observed by the catch block:
only its `message` property matters.  `none` models a thrown value with no
(or an undefined) `message` property; the empty string is a present but
falsy message. -/
structure ThrownError where
  message : Option String
deriving DecidableEq, Repr

/-- The `inlineData` payload pushed for each frame (lines 71-76). -/
structure InlineData where
  data : String
  mimeType : String
deriving DecidableEq, Repr

/-- One element of the `frames` array: `{ inlineData: { data, mimeType } }`. -/
structure FramePart where
  inlineData : InlineData
deriving DecidableEq, Repr

/-- Host-level description of one invocation of the sampler on a given
source: whether the video element fires `onloadedmetadata` (`loads = true`)
or `onerror` (`loads = false`), the metadata it reports, whether
`canvas.getContext("2d")` returns a non-null context, and the composite of
`drawImage` followed by `toDataURL("image/jpeg", 0.45).split(",")[1]` as an
oracle from the seek time to the base64 payload of the encoded frame. -/
structure VideoEnv where
  loads : Bool
  duration : ℚ
  videoWidth : ℕ
  videoHeight : ℕ
  ctx2d : Bool
  render : ℚ → String

/-- The constant `maxFrames = 250` (line 50). -/
def maxFrames : ℕ := 250

/-- The constant `targetHeight = 448` (line 57). -/
def targetHeight : ℚ := 448

/-- The scale factor `Math.min(1, targetHeight / video.videoHeight)`
(line 58).  In the host language a zero native height makes the quotient
positive infinity, so the minimum is 1; the zero branch records that. -/
def scaleFactor (videoHeight : ℕ) : ℚ :=
  if videoHeight = 0 then 1 else min 1 (targetHeight / videoHeight)

/-- The canvas width `video.videoWidth * scale` (line 59); assigning a
fractional value to the `width` attribute truncates it to an integer. -/
def canvasWidth (videoWidth videoHeight : ℕ) : ℕ :=
  (Int.floor ((videoWidth : ℚ) * scaleFactor videoHeight)).toNat

/-- The canvas height `video.videoHeight * scale` (line 60), truncated the
same way. -/
def canvasHeight (videoHeight : ℕ) : ℕ :=
  (Int.floor ((videoHeight : ℚ) * scaleFactor videoHeight)).toNat

/-- The seek target of sample `i`: `time = i * interval` with
`interval = duration / maxFrames` (lines 51 and 65). -/
def sampleTime (duration : ℚ) (i : ℕ) : ℚ :=
  (i : ℚ) * (duration / (maxFrames : ℚ))

/-- The rejection message of `video.onerror` (line 82). -/
def decodeErrorMsg : String :=
  "Failed to process video file. Ensure it is a valid MP4/MOV/WebM."

/-- The value a successful `extractFramesFromVideo` resolves with
(line 80). -/
structure ExtractOk where
  parts : List FramePart
  duration : ℚ
deriving DecidableEq, Repr

/-- The observable outcome of one invocation of the sampler: how the
promise settles, and whether `URL.revokeObjectURL` was called on the object
URL created for the video element. -/
structure ExtractResult where
  outcome : Except ThrownError ExtractOk
  urlRevoked : Bool

/-- Embedding of `extractFramesFromVideo` (lines 40-84).  If the video
loads, the loop of line 64 runs for every `i < maxFrames`, seeking to
`i * interval` and pushing an encoded frame only when the 2d context is
non-null (line 68); `URL.revokeObjectURL` runs at line 79 on this path
only.  If the video errors, the promise rejects with `decodeErrorMsg` and
the object URL is never revoked. -/
def extractFramesFromVideo (env : VideoEnv) : ExtractResult :=
  if env.loads then
    let frames : List FramePart :=
      (List.range maxFrames).filterMap (fun i =>
        if env.ctx2d then
          some { inlineData :=
                  { data := env.render (sampleTime env.duration i)
                  , mimeType := "image/jpeg" } }
        else none)
    { outcome := .ok { parts := frames, duration := env.duration }
    , urlRevoked := true }
  else
    { outcome := .error { message := some decodeErrorMsg }
    , urlRevoked := false }

/-! ## Error classification (catch block, lines 110-117) -/

/-- The fallback of `err.message || "An unexpected error occurred."`
(line 112). -/
def fallbackMsg : String := "An unexpected error occurred."

/-- The standardized resource-limit message (line 114). -/
def memoryOverflowMsg : String :=
  "Memory overflow. The video analysis hit a technical limit. Try a shorter file."

/-- Does the first character list start with the second? -/
def charsStartWith : List Char → List Char → Bool
  | _, [] => true
  | [], _ :: _ => false
  | c :: cs, d :: ds => (c = d) && charsStartWith cs ds

/-- Does the first character list contain the second contiguously? -/
def charsContain : List Char → List Char → Bool
  | [], sub => sub.isEmpty
  | c :: cs, sub => charsStartWith (c :: cs) sub || charsContain cs sub

/-- JavaScript `s.includes(sub)`: `sub` occurs contiguously in `s`. -/
def strIncludes (s sub : String) : Bool :=
  charsContain s.toList sub.toList

/-- The condition of line 113: the message contains one of the three
memory-exhaustion indicator substrings. -/
def hasMemoryIndicator (m : String) : Bool :=
  strIncludes m "string length" || strIncludes m "memory" || strIncludes m "allocation"

/-- The message computed by the catch block (lines 112-115):
`err.message || fallback`, where an absent or empty (falsy) message yields
the fallback, then the indicator check replaces it with the standardized
memory-overflow message. -/
def classifyError (e : ThrownError) : String :=
  let errorMessage :=
    match e.message with
    | some m => if m = "" then fallbackMsg else m
    | none => fallbackMsg
  if hasMemoryIndicator errorMessage then memoryOverflowMsg else errorMessage

/-- The `setState` of line 116: move to `error` storing the classified
message. -/
def runCatch (s : AppState) (e : ThrownError) : AppState :=
  { s with status := .error, error := some (classifyError e) }

/-! ## Lifecycle state machine (`handleVideoSelection`, lines 86-118) -/

/-- A resolved `fetch` response: its `ok` flag (which the code never
reads) and the outcome of `response.blob()`, whose value — wrapped into a
`File` at line 100 — is described by the `VideoEnv` the sampler will see. -/
structure FetchResponse where
  ok : Bool
  blob : Except ThrownError VideoEnv

/-- The argument of `handleVideoSelection`: either a non-null `file`, or a
URL whose `fetch` outcome is given (`Except.error` models a rejected fetch,
i.e. a network failure). -/
inductive VideoSelection where
  | file (env : VideoEnv)
  | url (fetched : Except ThrownError FetchResponse)

/-- The outcome of the external `analyzeVideo(parts, totalDuration)` call,
as a function of its two arguments. -/
def AnalyzeOracle : Type :=
  List FramePart → ℚ → Except ThrownError AnalysisResult

/-- The states produced from the moment the sampler is invoked (the shared
tail of both branches, lines 94-96 / 102-104 and 107-109, ending in the
catch of line 110 on any failure).  The first `setState analyzing` has
already happened in the caller. -/
def afterExtract (s2 : AppState) (env : VideoEnv) (analyze : AnalyzeOracle) :
    List AppState :=
  match (extractFramesFromVideo env).outcome with
  | .error e => [runCatch s2 e]
  | .ok r =>
    let s3 : AppState := { s2 with status := .analyzing }
    match analyze r.parts r.duration with
    | .ok res => [s3, { s3 with status := .completed, result := some res }]
    | .error e => [s3, runCatch s3 e]

/-- Embedding of `handleVideoSelection` (lines 86-118) as the list of
successive states: the initial state, then the state after each `setState`
call, in order.  Line 87 moves to `uploading` clearing `error`; the file
branch (lines 92-96) moves to `analyzing` and samples; the URL branch
(lines 97-105) awaits `fetch` and `blob` (either rejection jumps to the
catch) before moving to `analyzing` and sampling; on success the provider
is called (line 108) and the state moves to `completed` (line 109); any
thrown failure lands in the catch (lines 110-117). -/
def handleVideoSelection (s0 : AppState) (sel : VideoSelection)
    (analyze : AnalyzeOracle) : List AppState :=
  let s1 : AppState := { s0 with status := .uploading, error := none }
  let rest : List AppState :=
    match sel with
    | .file env =>
      let s2 : AppState := { s1 with status := .analyzing }
      s2 :: afterExtract s2 env analyze
    | .url fetched =>
      match fetched with
      | .error e => [runCatch s1 e]
      | .ok resp =>
        match resp.blob with
        | .error e => [runCatch s1 e]
        | .ok env =>
          let s2 : AppState := { s1 with status := .analyzing }
          s2 :: afterExtract s2 env analyze
  s0 :: s1 :: rest

/-- The state the invocation settles in: the last element of the trace. -/
def finalState (s0 : AppState) (sel : VideoSelection) (analyze : AnalyzeOracle) :
    AppState :=
  (handleVideoSelection s0 sel analyze).getLastD s0

/-! ## Exports and reset (lines 120-135, 154, 211-216) -/

/-- The block built for segment `s` at zero-based index `i` by the map of
line 122: the template literal
`[Segment ${i+1}] ${s.startTime}-${s.endTime}\nPROMPT: ${s.generatedPrompt}\nBRIDGE: ${s.transitionBridge}`. -/
def segmentBlock (i : ℕ) (s : VideoSegment) : String :=
  "[Segment " ++ toString (i + 1) ++ "] " ++ s.startTime ++ "-" ++ s.endTime
    ++ "\nPROMPT: " ++ s.generatedPrompt
    ++ "\nBRIDGE: " ++ s.transitionBridge

/-- The list of blocks of line 122, one per segment in source order. -/
def promptBlocks (r : AnalysisResult) : List String :=
  r.segments.enum.map (fun p => segmentBlock p.1 p.2)

/-- The text written to the clipboard by `copyAllPrompts` for a present
result: the blocks joined by a blank line (line 122). -/
def copyAllPromptsText (r : AnalysisResult) : String :=
  String.intercalate "\n\n" (promptBlocks r)

/-- Embedding of `copyAllPrompts` (lines 120-125): the guard of line 121
returns without writing when `result` is null; otherwise the joined text is
written. -/
def copyAllPrompts (s : AppState) : Option String :=
  match s.result with
  | none => none
  | some r => some (copyAllPromptsText r)

/-- The reset transition (lines 154 and 211-216): both buttons call
`setState({status: 'idle', progress: 0, result: null, error: null})`
unconditionally. -/
def reset (_s : AppState) : AppState :=
  { status := .idle, progress := 0, result := none, error := none }

/-! ## Concrete inputs used by witnesses and counterexamples -/

/-- Scenario A input: a 600-second 1080p video that loads, with a working
2d context. -/
def env600 : VideoEnv :=
  { loads := true, duration := 600, videoWidth := 1920, videoHeight := 1080
  , ctx2d := true, render := fun _ => "frame" }

/-- A source that the video element cannot decode: `onerror` fires. -/
def undecodableEnv : VideoEnv :=
  { loads := false, duration := 0, videoWidth := 0, videoHeight := 0
  , ctx2d := true, render := fun _ => "" }

/-- A video that loads normally but for which `canvas.getContext("2d")`
returns null. -/
def ctxNullEnv : VideoEnv :=
  { loads := true, duration := 600, videoWidth := 1920, videoHeight := 1080
  , ctx2d := false, render := fun _ => "" }

/-- A fetch that resolves with a 404: `ok` is false and the body (an error
page) is not decodable as video. -/
def notFoundFetch : Except ThrownError FetchResponse :=
  .ok { ok := false, blob := .ok undecodableEnv }

/-- A provider call that rejects with a message-less error. -/
def noProvider : AnalyzeOracle := fun _ _ => .error { message := none }

/-- A one-segment sample used to exercise the export template. -/
def sampleSegment : VideoSegment :=
  { startTime := "00:00", endTime := "00:05", charactersInScene := []
  , characterEmotions := [], sceneDescription := "", cameraAndMotion := ""
  , action := "", emotion := "", emotionalIntensity := 1
  , transitionBridge := "cut", generatedPrompt := "a scene" }

/-- A sample analysis result with a single segment. -/
def sampleResult : AnalysisResult :=
  { globalSummary := "", emotionalArc := "", characterMemory := []
  , segments := [sampleSegment], fullVideoSummaryPrompt := "" }

/-- A terminal completed state used to exercise reset. -/
def completedState : AppState :=
  { status := .completed, progress := 0, result := some sampleResult
  , error := none }

/-! ## Helper lemmas -/

/-- A filterMap that always succeeds is a map. -/
lemma filterMap_some {α β : Type} (f : α → β) (l : List α) :
    l.filterMap (fun a => some (f a)) = l.map f := by
  induction l with
  | nil => rfl
  | cons a l ih => simp [List.filterMap_cons, ih]

/-- When the video loads and the 2d context is non-null, the resolved
parts are exactly one rendered frame per sample index, in index order. -/
lemma extract_parts_eq (env : VideoEnv) (hl : env.loads = true)
    (hc : env.ctx2d = true) :
    (extractFramesFromVideo env).outcome = .ok
      { parts := (List.range maxFrames).map (fun i =>
          { inlineData :=
              { data := env.render (sampleTime env.duration i)
              , mimeType := "image/jpeg" } })
      , duration := env.duration } := by
  simp only [extractFramesFromVideo, hl, hc, if_true]
  rw [filterMap_some]

/-! ## Claims -/

/-- C1 (amended): for every video source that loads with duration > 0 and
for which the canvas 2d rendering context is available, the frame sampler
returns exactly 250 frames, regardless of the duration or resolution.  (As
stated the claim fails: with a null 2d context the sampler resolves with an
empty batch instead of failing, see the counterexample.) -/
theorem extract_returns_maxFrames (env : VideoEnv) (hl : env.loads = true)
    (_hd : 0 < env.duration) (hc : env.ctx2d = true) :
    ∃ r : ExtractOk, (extractFramesFromVideo env).outcome = .ok r ∧
      r.parts.length = 250 := by
  refine ⟨_, extract_parts_eq env hl hc, ?_⟩
  simp [maxFrames]

/-- Witness for C1: the sampler on the Scenario A video yields 250
frames. -/
theorem extract_returns_maxFrames_witness :
    (0 : ℚ) < 600 ∧
    ∃ r : ExtractOk, (extractFramesFromVideo env600).outcome = .ok r ∧
      r.parts.length = 250 :=
  ⟨by norm_num, extract_returns_maxFrames env600 rfl (by norm_num [env600]) rfl⟩

/-- Counterexample to C1 as stated: a loading video of positive duration
for which the 2d context is null makes the sampler resolve with an empty
batch — it neither fails nor returns 250 frames. -/
theorem extract_count_counterexample :
    ctxNullEnv.loads = true ∧ (0 : ℚ) < ctxNullEnv.duration ∧
    (extractFramesFromVideo ctxNullEnv).outcome =
      .ok { parts := [], duration := 600 } := by
  refine ⟨rfl, by norm_num [ctxNullEnv], ?_⟩
  simp [extractFramesFromVideo, ctxNullEnv]

/-- C5: whenever the sampler succeeds with a working 2d context, the frame
at index `i` is captured at time `sampleTime duration i = i * (duration /
250)`; sample times are non-decreasing in index order, and a 600-second
video yields times 0, 2.4, 4.8, ..., 597.6. -/
theorem sampleTime_spec (env : VideoEnv) (hl : env.loads = true)
    (hc : env.ctx2d = true) (i j : ℕ) (hi : i < 250) (_hj : j < 250) :
    (∃ r : ExtractOk, (extractFramesFromVideo env).outcome = .ok r ∧
        r.parts[i]? = some { inlineData :=
          { data := env.render (sampleTime env.duration i)
          , mimeType := "image/jpeg" } }) ∧
    sampleTime env.duration i = (i : ℚ) * (env.duration / 250) ∧
    (i ≤ j → 0 < env.duration →
      sampleTime env.duration i ≤ sampleTime env.duration j) ∧
    sampleTime 600 0 = 0 ∧ sampleTime 600 1 = 2.4 ∧
    sampleTime 600 2 = 4.8 ∧ sampleTime 600 249 = 597.6 := by
  refine ⟨⟨_, extract_parts_eq env hl hc, ?_⟩, ?_, ?_, ?_, ?_, ?_, ?_⟩
  · simp [maxFrames, List.getElem?_range, hi]
  · norm_num [sampleTime, maxFrames]
  · intro hij hdpos
    unfold sampleTime
    apply mul_le_mul_of_nonneg_right (by exact_mod_cast hij) (by positivity)
  · norm_num [sampleTime, maxFrames]
  · norm_num [sampleTime, maxFrames]
  · norm_num [sampleTime, maxFrames]
  · norm_num [sampleTime, maxFrames]

/-- Witness for C5 at the Scenario A video: sample 1 is taken at 2.4
seconds and no later than sample 2. -/
theorem sampleTime_spec_witness :
    sampleTime 600 1 = 2.4 ∧ sampleTime 600 1 ≤ sampleTime 600 2 := by
  have h := sampleTime_spec env600 rfl rfl 1 2 (by norm_num) (by norm_num)
  exact ⟨h.2.2.2.2.1, h.2.2.1 (by norm_num) (by norm_num [env600])⟩

/-- C6: the sampler never upscales — for a native height of at most 448
the canvas keeps the native dimensions, and for a native height above 448
the canvas height is exactly 448 with the width scaled by the same factor
`448 / nativeHeight` up to rounding (the floor of the scaled width). -/
theorem scaling_spec (w h : ℕ) :
    (h ≤ 448 → canvasWidth w h = w ∧ canvasHeight h = h) ∧
    (448 < h → canvasHeight h = 448 ∧
      scaleFactor h = 448 / (h : ℚ) ∧
      (canvasWidth w h : ℚ) ≤ (w : ℚ) * scaleFactor h ∧
      (w : ℚ) * scaleFactor h - 1 < (canvasWidth w h : ℚ)) := by
  constructor
  · intro hle
    have hs : scaleFactor h = 1 := by
      unfold scaleFactor
      by_cases h0 : h = 0
      · simp [h0]
      · have hpos : (0 : ℚ) < (h : ℚ) := by
          exact_mod_cast Nat.pos_of_ne_zero h0
        rw [if_neg h0, min_eq_left]
        rw [targetHeight, one_le_div hpos]
        exact_mod_cast hle
    constructor
    · unfold canvasWidth
      rw [hs, mul_one]
      simp
    · unfold canvasHeight
      rw [hs, mul_one]
      simp
  · intro hgt
    have h0 : h ≠ 0 := by omega
    have hpos : (0 : ℚ) < (h : ℚ) := by exact_mod_cast Nat.pos_of_ne_zero h0
    have hs : scaleFactor h = 448 / (h : ℚ) := by
      unfold scaleFactor targetHeight
      rw [if_neg h0, min_eq_right]
      rw [div_le_one hpos]
      exact_mod_cast hgt.le
    have hwnn : (0 : ℚ) ≤ (w : ℚ) * scaleFactor h := by
      rw [hs]; positivity
    have hfl : (0 : ℤ) ≤ Int.floor ((w : ℚ) * scaleFactor h) :=
      Int.floor_nonneg.mpr hwnn
    have hcast : ((canvasWidth w h : ℕ) : ℚ)
        = ((Int.floor ((w : ℚ) * scaleFactor h) : ℤ) : ℚ) := by
      unfold canvasWidth
      exact_mod_cast congrArg (fun z : ℤ => (z : ℚ)) (Int.toNat_of_nonneg hfl)
    refine ⟨?_, hs, ?_, ?_⟩
    · unfold canvasHeight
      rw [hs, mul_comm, div_mul_cancel₀ _ (ne_of_gt hpos)]
      norm_num
      rfl
    · rw [hcast]
      exact_mod_cast Int.floor_le _
    · rw [hcast]
      exact_mod_cast Int.sub_one_lt_floor _

/-- Witness for C6: a 1080p native frame is scaled to height 448, while a
400x300 native frame keeps its dimensions. -/
theorem scaling_spec_witness :
    canvasHeight 1080 = 448 ∧ canvasWidth 400 300 = 400 ∧
    canvasHeight 300 = 300 :=
  ⟨((scaling_spec 1920 1080).2 (by norm_num)).1,
   ((scaling_spec 400 300).1 (by norm_num)).1,
   ((scaling_spec 400 300).1 (by norm_num)).2⟩

/-- C9: the claim is right and the code is wrong — on the early-failure
path (the source cannot be loaded or decoded, so `onerror` fires) the
sampler rejects without ever calling `URL.revokeObjectURL`, so the object
URL bound to the source leaks; it is revoked only on the
`onloadedmetadata` path. -/
theorem extract_failure_leaks_url :
    (extractFramesFromVideo undecodableEnv).urlRevoked = false ∧
    (extractFramesFromVideo undecodableEnv).outcome =
      .error { message := some decodeErrorMsg } ∧
    (extractFramesFromVideo env600).urlRevoked = true := by
  refine ⟨rfl, ?_, rfl⟩
  simp [extractFramesFromVideo, undecodableEnv]

/-- C2: from the idle state, every invocation of submit settles in exactly
one of the states completed or error — the status is never left at
uploading or analyzing once the call resolves. -/
theorem submit_settles (s0 : AppState) (sel : VideoSelection)
    (analyze : AnalyzeOracle) (_h : s0.status = .idle) :
    (finalState s0 sel analyze).status = .completed ∨
    (finalState s0 sel analyze).status = .error := by
  unfold finalState handleVideoSelection
  cases sel with
  | file env =>
    cases hx : (extractFramesFromVideo env).outcome with
    | error e => simp [afterExtract, hx, runCatch, List.getLastD]
    | ok r =>
      cases ha : analyze r.parts r.duration with
      | ok res => simp [afterExtract, hx, ha, List.getLastD]
      | error e => simp [afterExtract, hx, ha, runCatch, List.getLastD]
  | url fetched =>
    cases fetched with
    | error e => simp [runCatch, List.getLastD]
    | ok resp =>
      cases hb : resp.blob with
      | error e => simp [hb, runCatch, List.getLastD]
      | ok env =>
        cases hx : (extractFramesFromVideo env).outcome with
        | error e => simp [hb, afterExtract, hx, runCatch, List.getLastD]
        | ok r =>
          cases ha : analyze r.parts r.duration with
          | ok res => simp [hb, afterExtract, hx, ha, List.getLastD]
          | error e => simp [hb, afterExtract, hx, ha, runCatch, List.getLastD]

/-- Witness for C2: a concrete run from the initial state settles in
completed or error. -/
theorem submit_settles_witness :
    (finalState initialState (.file env600) noProvider).status = .completed ∨
    (finalState initialState (.file env600) noProvider).status = .error :=
  submit_settles initialState (.file env600) noProvider rfl

/-- C3: the claim is right and the code is wrong — `handleVideoSelection`
never reads `response.ok`, so a URL whose fetch resolves with a 404 is not
reported as a fetch failure: the body is wrapped into a file, the state
passes through analyzing, and the stored message is the decode-stage
message, with trace idle, uploading, analyzing, error. -/
theorem submit_404_decode_error :
    ((handleVideoSelection initialState (.url notFoundFetch) noProvider).map
        AppState.status)
      = [.idle, .uploading, .analyzing, .error] ∧
    (finalState initialState (.url notFoundFetch) noProvider).error
      = some decodeErrorMsg := by
  constructor
  · rfl
  · decide

/-- C4 (amended): a failure whose message contains one of the indicator
substrings is stored as the standardized memory-overflow message, and a
failure with a non-empty message lacking such a substring is surfaced
verbatim.  (As stated the claim fails: an empty message contains no
indicator yet is replaced by the generic fallback rather than surfaced
verbatim, see the counterexample.) -/
theorem classifyError_spec (m : String) :
    (hasMemoryIndicator m = true →
      ∀ s : AppState,
        (runCatch s { message := some m }).error = some memoryOverflowMsg) ∧
    (m ≠ "" → hasMemoryIndicator m = false →
      ∀ s : AppState,
        (runCatch s { message := some m }).error = some m) := by
  constructor
  · intro hind s
    by_cases hm : m = ""
    · subst hm; exact absurd hind (by decide)
    · simp [runCatch, classifyError, hm, hind]
  · intro hne hind s
    simp [runCatch, classifyError, hne, hind]

/-- Witness for C4: an allocation-style message is standardized and an
ordinary message is surfaced verbatim. -/
theorem classifyError_spec_witness :
    (runCatch initialState { message := some "allocation failed" }).error
      = some memoryOverflowMsg ∧
    (runCatch initialState { message := some "boom" }).error = some "boom" :=
  ⟨(classifyError_spec "allocation failed").1 (by decide) initialState,
   (classifyError_spec "boom").2 (by decide) (by decide) initialState⟩

/-- Counterexample to C4 as stated: the empty message contains no
indicator substring, yet the stored message is not the raw message — the
fallback replaces it. -/
theorem classifyError_verbatim_cex :
    hasMemoryIndicator "" = false ∧
    (runCatch initialState { message := some "" }).error ≠ some "" := by
  exact ⟨by decide, by decide⟩

/-- C10: the catch block always stores a non-null message: a non-empty
thrown message is used (standardized when it carries an indicator
substring), and an absent message is replaced by the fixed fallback. -/
theorem catch_error_nonnull (s : AppState) (e : ThrownError) :
    (runCatch s e).error ≠ none ∧
    (∀ m, e.message = some m → m ≠ "" →
      (runCatch s e).error =
        some (if hasMemoryIndicator m then memoryOverflowMsg else m)) ∧
    (e.message = none → (runCatch s e).error = some fallbackMsg) := by
  refine ⟨by simp [runCatch], ?_, ?_⟩
  · intro m hm hne
    simp [runCatch, classifyError, hm, hne]
  · intro hm
    simp [runCatch, classifyError, hm,
      show hasMemoryIndicator fallbackMsg = false from by decide]

/-- Witness for C10: a message-less thrown value stores the fallback. -/
theorem catch_error_nonnull_witness :
    (runCatch initialState { message := none }).error = some fallbackMsg :=
  (catch_error_nonnull initialState { message := none }).2.2 rfl

/-- C7: the clipboard export joins one block per segment with a blank
line, in source order, block `n` (1-based) following the literal template
with the segment's times, prompt and bridge. -/
theorem copyAllPrompts_spec (r : AnalysisResult) :
    copyAllPromptsText r = String.intercalate "\n\n" (promptBlocks r) ∧
    (promptBlocks r).length = r.segments.length ∧
    (∀ n sg, r.segments[n]? = some sg →
      (promptBlocks r)[n]? = some
        ("[Segment " ++ toString (n + 1) ++ "] " ++ sg.startTime ++ "-"
          ++ sg.endTime ++ "\nPROMPT: " ++ sg.generatedPrompt
          ++ "\nBRIDGE: " ++ sg.transitionBridge)) ∧
    (∀ s : AppState, s.result = some r →
      copyAllPrompts s = some (copyAllPromptsText r)) := by
  refine ⟨rfl, ?_, ?_, ?_⟩
  · simp [promptBlocks]
  · intro n sg hn
    simp [promptBlocks, List.getElem?_enum, hn, segmentBlock]
  · intro s hs
    simp [copyAllPrompts, hs]

/-- Witness for C7: the one-segment sample result yields exactly its
templated block. -/
theorem copyAllPrompts_spec_witness :
    (promptBlocks sampleResult)[0]? =
      some "[Segment 1] 00:00-00:05\nPROMPT: a scene\nBRIDGE: cut" :=
  (copyAllPrompts_spec sampleResult).2.2.1 0 sampleSegment rfl

/-- C8: reset from a terminal state always yields the state with status
idle, progress 0, and both result and error cleared. -/
theorem reset_spec (s : AppState)
    (_h : s.status = .completed ∨ s.status = .error) :
    reset s = initialState ∧ (reset s).result = none ∧
    (reset s).error = none :=
  ⟨rfl, rfl, rfl⟩

/-- Witness for C8: resetting a completed state yields the initial
state. -/
theorem reset_spec_witness : reset completedState = initialState :=
  (reset_spec completedState (Or.inl rfl)).1

end AVPG
